import Mathlib

/-
Verification of the resilient download pipeline in `src/bot.py`.

The Python source is shallowly embedded: the shared `progress` dict becomes
the structure `Progress`; the `threading.Event` cancel flag becomes a
deterministic schedule `cancelAt : Option Nat` over the sequence of
`is_set()` calls (the n-th call returns true iff the schedule's index has
been reached — a `threading.Event`, once set, stays set, which this model
captures exactly); the HTTP transport becomes a function from the attempt
number to a response description; temporary files become fresh natural-number
identifiers tracked in an explicit list of live files.  Wall-clock sleeping is
recorded (`slept`) but not otherwise modelled.
-/

namespace Bot

/-- Exception raised by the Python code: the exception's type name
(`type(e).__name__`) and its message (`str(e)`). -/
structure PyErr where
  ty : String
  msg : String
deriving DecidableEq, Repr

/-- Rendering used for `progress["error"]`, Python `f"{type(e).__name__}: {e}"`. -/
def fmtProgErr (e : PyErr) : String := e.ty ++ ": " ++ e.msg

/-- Rendering used in the terminal message, Python `f"{last_err}"` = `str(e)`. -/
def fmtStrErr (e : PyErr) : String := e.msg

/-- The shared progress dict as reset by `_download_file_with_progress`
(keys `downloaded`, `total`, `done`, `error`, `path`, `status`). -/
structure Progress where
  downloaded : Nat
  total : Option Nat
  done : Bool
  error : Option String
  path : Option Nat
  status : Option Nat
deriving DecidableEq, Repr

/-- The initial value written by `progress.update({...})` at bot.py:128. -/
def initProgress : Progress :=
  { downloaded := 0, total := none, done := false, error := none, path := none, status := none }

/-- One event of a streamed response body: a chunk yielded by
`r.iter_content(chunk_size=512*1024)` (its byte length), or the iterator
raising (exception type name and message). -/
inductive BodyEv where
  | chunk (n : Nat)
  | errEv (ty msg : String)
deriving DecidableEq, Repr

/-- What `SESSION.get` produces on one attempt: the call itself raising
(connection failure), or a response with a status code, an optional
`content-length` header value, and a body event stream. -/
inductive TResp where
  | connFail (ty msg : String)
  | resp (status : Nat) (contentLength : Option String) (body : List BodyEv)

/-- A transport: the response observed on the n-th attempt (1-based, as in
`enumerate(backoffs, start=1)`). -/
abbrev Transport := Nat → TResp

/-- Engine-visible world state: the shared progress dict, how many
`cancel_event.is_set()` calls have happened, the next fresh temp-file id
(`tempfile.mkstemp`), which temp files currently exist, how many network
requests (`SESSION.get` calls) were issued, and total seconds slept. -/
structure EngineSt where
  progress : Progress
  checks : Nat
  nextTmp : Nat
  live : List Nat
  gets : Nat
  slept : Nat
deriving DecidableEq, Repr

/-- Deterministic schedule for `cancel_event`: the c-th `is_set()` call
(0-based) returns true iff the event was set by then.  `some n` means the
event becomes (and stays) set from the n-th call on; `none` means never set. -/
def isSetAt (cancelAt : Option Nat) (c : Nat) : Bool :=
  match cancelAt with
  | none => false
  | some n => n ≤ c

/-- Python `_safe_int` applied to `r.headers.get("content-length")`:
`int(x)` on success, `None` when `x` is `None` or not a number. -/
def safe_int (x : Option String) : Option Nat := x.bind String.toNat?

/-- requests' `Response.raise_for_status`: raises `HTTPError` exactly for
status codes 400–599 (message abstracted), nothing otherwise. -/
def raiseForStatus (status : Nat) : Option PyErr :=
  if 400 ≤ status ∧ status ≤ 599 then
    some { ty := "HTTPError", msg := "HTTP error " ++ toString status }
  else none

/-- The chunk loop at bot.py:171-177: for each yielded chunk, first poll
`cancel_event.is_set()` (raising `RuntimeError("cancelled")` if set), skip
falsy (empty) chunks, otherwise write and add the chunk length to
`progress["downloaded"]`.  An iterator error raises before any further
cancel poll. -/
def streamChunks (cancelAt : Option Nat) : List BodyEv → EngineSt → Except PyErr Unit × EngineSt
  | [], st => (Except.ok (), st)
  | BodyEv.errEv ty msg :: _, st => (Except.error { ty := ty, msg := msg }, st)
  | BodyEv.chunk n :: rest, st =>
    let set := isSetAt cancelAt st.checks
    let st := { st with checks := st.checks + 1 }
    if set then (Except.error { ty := "RuntimeError", msg := "cancelled" }, st)
    else if n = 0 then streamChunks cancelAt rest st
    else
      streamChunks cancelAt rest
        { st with progress := { st.progress with downloaded := st.progress.downloaded + n } }

/-- The body of the `try:` at bot.py:149-188 for one attempt: record the
status into `progress["status"]`, classify 401/403, 404, 429, 5xx, then
`raise_for_status()`; on a passing status read `content-length` into
`progress["total"]`, create a fresh temp file, and stream the body into it;
on success set `progress["path"]`/`progress["done"]` and return the path;
any exception while streaming removes the temp file and propagates. -/
def tryAttempt (cancelAt : Option Nat) (r : TResp) (st : EngineSt) :
    Except PyErr Nat × EngineSt :=
  match r with
  | TResp.connFail ty msg => (Except.error { ty := ty, msg := msg }, st)
  | TResp.resp status clen body =>
    let st := { st with progress := { st.progress with status := some status } }
    if status = 401 ∨ status = 403 then
      (Except.error { ty := "RuntimeError",
                      msg := "HTTP " ++ toString status ++ " forbidden/unauthorized" }, st)
    else if status = 404 then
      (Except.error { ty := "RuntimeError", msg := "HTTP 404 not found" }, st)
    else if status = 429 then
      (Except.error { ty := "RuntimeError", msg := "HTTP 429 rate limited" }, st)
    else if 500 ≤ status ∧ status ≤ 599 then
      (Except.error { ty := "RuntimeError",
                      msg := "HTTP " ++ toString status ++ " server error" }, st)
    else
      match raiseForStatus status with
      | some e => (Except.error e, st)
      | none =>
        let st := { st with progress := { st.progress with total := safe_int clen } }
        let path := st.nextTmp
        let st := { st with nextTmp := path + 1, live := path :: st.live }
        match streamChunks cancelAt body st with
        | (Except.ok _, st') =>
          (Except.ok path,
           { st' with progress := { st'.progress with path := some path, done := true } })
        | (Except.error e, st') =>
          (Except.error e, { st' with live := st'.live.erase path })

/-- The retry loop at bot.py:140-197 over the remaining `(attempt, delay)`
pairs, carrying `last_err`.  Before each attempt: sleep the backoff delay if
nonzero, then poll `cancel_event.is_set()` — if set, record
`cancelled`/`done` and raise (this raise is outside the `try`, so it
propagates).  Otherwise issue the request; a raised attempt error is caught,
recorded into `progress["error"]`, and the loop continues.  When the pairs
run out, set `done` and raise the terminal wrapping error. -/
def downloadLoop (t : Transport) (cancelAt : Option Nat) :
    List (Nat × Nat) → Option PyErr → EngineSt → Except PyErr Nat × EngineSt
  | [], lastErr, st =>
    let lastMsg := match lastErr with
      | some e => fmtStrErr e
      | none => "None"
    (Except.error { ty := "RuntimeError", msg := "download failed after retries: " ++ lastMsg },
     { st with progress := { st.progress with done := true } })
  | (attempt, delay) :: rest, _, st =>
    let st := if delay = 0 then st else { st with slept := st.slept + delay }
    let set := isSetAt cancelAt st.checks
    let st := { st with checks := st.checks + 1 }
    if set then
      (Except.error { ty := "RuntimeError", msg := "cancelled" },
       { st with progress := { st.progress with error := some "cancelled", done := true } })
    else
      let st := { st with gets := st.gets + 1 }
      match tryAttempt cancelAt (t attempt) st with
      | (Except.ok p, st') => (Except.ok p, st')
      | (Except.error e, st') =>
        downloadLoop t cancelAt rest (some e)
          { st' with progress := { st'.progress with error := some (fmtProgErr e) } }

/-- The backoff schedule `backoffs = [0, 2, 5, 10]` (4 attempts). -/
def backoffs : List Nat := [0, 2, 5, 10]

/-- Python `enumerate(backoffs, start=1)`. -/
def attemptSchedule : List (Nat × Nat) := backoffs.enum.map fun p => (p.1 + 1, p.2)

/-- `_download_file_with_progress(url, progress, cancel_event)`: reset the
progress dict, then run the retry loop from a fresh world state. -/
def download_file_with_progress (t : Transport) (cancelAt : Option Nat) :
    Except PyErr Nat × EngineSt :=
  downloadLoop t cancelAt attemptSchedule none
    { progress := initProgress, checks := 0, nextTmp := 0, live := [], gets := 0, slept := 0 }

theorem attemptSchedule_eq : attemptSchedule = [(1, 0), (2, 2), (3, 5), (4, 10)] := by rfl

/-- Transport for C1's counterexample: attempt 1 answers 200 and streams one
7-byte chunk before the connection resets; every later attempt answers 200
with a complete 5-byte body. -/
def t_partial_then_full : Transport := fun a =>
  if a = 1 then
    TResp.resp 200 (some "12")
      [BodyEv.chunk 7, BodyEv.errEv "ConnectionError" "connection reset"]
  else TResp.resp 200 (some "5") [BodyEv.chunk 5]

/-- C1 counterexample: after attempt 1 fails having written 7 bytes, attempt
2 succeeds with a 5-byte body, yet the final `progress["downloaded"]` is
7 + 5 = 12, not 5 — `downloaded` is reset only once at the start of the
invocation (bot.py:128-135) and accumulates across attempts, so the claimed
per-attempt reset does not happen. -/
theorem C1_counterexample :
    (download_file_with_progress t_partial_then_full none).1 = Except.ok 1 ∧
    (download_file_with_progress t_partial_then_full none).2.progress.downloaded = 12 ∧
    ¬ (download_file_with_progress t_partial_then_full none).2.progress.downloaded = 5 :=
  ⟨rfl, rfl, by decide⟩

/-- Schematic version of the same shape: attempt 1 streams `b` bytes then
resets, attempt 2 streams a complete `L`-byte body. -/
def t_partial_then_full_g (b L : Nat) : Transport := fun a =>
  if a = 1 then
    TResp.resp 200 none [BodyEv.chunk b, BodyEv.errEv "ConnectionError" "connection reset"]
  else TResp.resp 200 none [BodyEv.chunk L]

/-- C1 amended: the progress counters are reset exactly once, at the start of
the invocation; `downloaded` accumulates across attempts, so a failed attempt
that wrote `b` bytes followed by a successful attempt with an `L`-byte body
ends with `downloaded = b + L` (not `L`). -/
theorem C1_amended_accumulates (b L : Nat) :
    (download_file_with_progress (t_partial_then_full_g b L) none).1 = Except.ok 1 ∧
    (download_file_with_progress (t_partial_then_full_g b L) none).2.progress.downloaded =
      b + L := by
  by_cases hb : b = 0 <;> by_cases hL : L = 0 <;>
    simp [download_file_with_progress, attemptSchedule, backoffs, downloadLoop, tryAttempt,
      streamChunks, isSetAt, raiseForStatus, safe_int, fmtProgErr, initProgress,
      t_partial_then_full_g, hb, hL]

/-- Transport for C2's counterexample: attempts 1–3 answer 404; attempt 4
answers 200 and streams two 5-byte chunks. -/
def t_404x3_then_stream : Transport := fun a =>
  if a = 4 then TResp.resp 200 (some "10") [BodyEv.chunk 5, BodyEv.chunk 5]
  else TResp.resp 404 none []

/-- C2 counterexample: the cancel event becomes set after the first chunk of
attempt 4 has been written (`is_set()` call index 5).  The partial temp file
is deleted, but the mid-stream `RuntimeError("cancelled")` is caught by the
attempt-level `except` (bot.py:190) and recorded as a retryable attempt
failure (`progress["error"] = "RuntimeError: cancelled"`), and since it was
the last attempt the function raises the terminal retries-exhausted error —
not a cancellation error. -/
theorem C2_counterexample :
    (download_file_with_progress t_404x3_then_stream (some 5)).1 =
      Except.error { ty := "RuntimeError",
                     msg := "download failed after retries: cancelled" } ∧
    (download_file_with_progress t_404x3_then_stream (some 5)).2.live = [] ∧
    (download_file_with_progress t_404x3_then_stream (some 5)).2.progress.done = true ∧
    (download_file_with_progress t_404x3_then_stream (some 5)).2.progress.error =
      some "RuntimeError: cancelled" ∧
    ("download failed after retries: cancelled" : String) ≠ "cancelled" :=
  ⟨rfl, rfl, rfl, rfl, by decide⟩

/-- Transport for C2's amended claim: attempt 1 answers 200 and streams a
`(c+1)`-byte chunk and then a 1-byte chunk; later attempts would answer 404
(they are never reached). -/
def t_stream_cancel (c : Nat) : Transport := fun a =>
  if a = 1 then TResp.resp 200 (some "9") [BodyEv.chunk (c + 1), BodyEv.chunk 1]
  else TResp.resp 404 none []

/-- C2 amended: when the cancel event becomes set after one chunk has been
written (`is_set()` call index 2) on a non-final attempt, the partial temp
file is deleted, the mid-stream cancellation is first recorded as that
attempt's failure, and the next iteration's pre-attempt check raises the
cancellation error without issuing another network request (`gets = 1`),
leaving `done = true` and `error = "cancelled"`. -/
theorem C2_amended_cancel_midstream (c : Nat) :
    (download_file_with_progress (t_stream_cancel c) (some 2)).1 =
      Except.error { ty := "RuntimeError", msg := "cancelled" } ∧
    (download_file_with_progress (t_stream_cancel c) (some 2)).2.gets = 1 ∧
    (download_file_with_progress (t_stream_cancel c) (some 2)).2.live = [] ∧
    (download_file_with_progress (t_stream_cancel c) (some 2)).2.progress.done = true ∧
    (download_file_with_progress (t_stream_cancel c) (some 2)).2.progress.error =
      some "cancelled" ∧
    (download_file_with_progress (t_stream_cancel c) (some 2)).2.progress.downloaded =
      c + 1 := by
  simp [download_file_with_progress, attemptSchedule, backoffs, downloadLoop, tryAttempt,
    streamChunks, isSetAt, raiseForStatus, safe_int, fmtProgErr, initProgress, t_stream_cancel]

/-- C3: against a transport that answers HTTP 404 on every attempt (any
content-length header, any body), the download makes exactly 4 attempts
(4 network requests), fails with the terminal error wrapping the not-found
error, leaves `done = true` and `error` holding the last observed error, and
no temporary file was ever created, so none remains. -/
theorem C3_always_404 (cl : Option String) (body : List BodyEv) :
    (download_file_with_progress (fun _ => TResp.resp 404 cl body) none).1 =
      Except.error { ty := "RuntimeError",
                     msg := "download failed after retries: HTTP 404 not found" } ∧
    (download_file_with_progress (fun _ => TResp.resp 404 cl body) none).2.gets = 4 ∧
    (download_file_with_progress (fun _ => TResp.resp 404 cl body) none).2.progress.done =
      true ∧
    (download_file_with_progress (fun _ => TResp.resp 404 cl body) none).2.progress.error =
      some "RuntimeError: HTTP 404 not found" ∧
    (download_file_with_progress (fun _ => TResp.resp 404 cl body) none).2.progress.status =
      some 404 ∧
    (download_file_with_progress (fun _ => TResp.resp 404 cl body) none).2.nextTmp = 0 ∧
    (download_file_with_progress (fun _ => TResp.resp 404 cl body) none).2.live = [] :=
  ⟨rfl, rfl, rfl, rfl, rfl, rfl, rfl⟩

/-- Streaming a body made only of data chunks (no iterator error) with the
cancel event never set succeeds, bumps the check counter once per chunk, and
adds the chunk sizes to `downloaded` (empty chunks are skipped but contribute
0 anyway). -/
theorem streamChunks_chunks (chunks : List Nat) (st : EngineSt) :
    streamChunks none (chunks.map BodyEv.chunk) st =
      (Except.ok (),
       { st with checks := st.checks + chunks.length,
                 progress :=
                   { st.progress with
                     downloaded := st.progress.downloaded + chunks.sum } }) := by
  induction chunks generalizing st with
  | nil => simp [streamChunks]
  | cons c cs ih =>
    by_cases hc : c = 0 <;>
      simp [streamChunks, isSetAt, hc, ih, EngineSt.mk.injEq, Progress.mk.injEq] <;> omega

/-- Transport for C4: attempts 1–3 answer 500 (arbitrary header/body, never
read past the status check); attempt 4 answers 200 with a complete body made
of the given chunks. -/
def t_500x3_then_ok (cl5 : Option String) (b5 : List BodyEv) (cl : Option String)
    (chunks : List Nat) : Transport := fun a =>
  if a = 4 then TResp.resp 200 cl (chunks.map BodyEv.chunk)
  else TResp.resp 500 cl5 b5

/-- C4: with 500 on the first 3 attempts and 200 with a full body on the 4th,
the download returns a local path (temp file id 0), `done = true`, the local
path is recorded, and `downloaded` equals the body length (the sum of the
chunk sizes — the three 500 attempts wrote nothing). -/
theorem C4_500x3_then_200 (cl5 : Option String) (b5 : List BodyEv) (cl : Option String)
    (chunks : List Nat) :
    (download_file_with_progress (t_500x3_then_ok cl5 b5 cl chunks) none).1 =
      Except.ok 0 ∧
    (download_file_with_progress
        (t_500x3_then_ok cl5 b5 cl chunks) none).2.progress.done = true ∧
    (download_file_with_progress
        (t_500x3_then_ok cl5 b5 cl chunks) none).2.progress.path = some 0 ∧
    (download_file_with_progress
        (t_500x3_then_ok cl5 b5 cl chunks) none).2.progress.downloaded = chunks.sum := by
  simp [download_file_with_progress, attemptSchedule, backoffs, downloadLoop, tryAttempt,
    streamChunks_chunks, isSetAt, raiseForStatus, safe_int, fmtProgErr, initProgress,
    t_500x3_then_ok]

/-- Transport answering 304 — a non-2xx status — with a 3-byte body. -/
def t304 : Transport := fun _ => TResp.resp 304 (some "3") [BodyEv.chunk 3]

/-- C5 counterexample: a 304 response is non-2xx, yet no branch of the
classification matches it and `raise_for_status` only raises for 400–599, so
the attempt does not fail — the body is streamed and the download succeeds
with no error recorded.  "Any other non-2xx → generic HTTP error" is false. -/
theorem C5_counterexample :
    (download_file_with_progress t304 none).1 = Except.ok 0 ∧
    (download_file_with_progress t304 none).2.progress.done = true ∧
    (download_file_with_progress t304 none).2.progress.error = none ∧
    (download_file_with_progress t304 none).2.progress.status = some 304 ∧
    (download_file_with_progress t304 none).2.progress.downloaded = 3 ∧
    ¬ (200 ≤ 304 ∧ 304 ≤ 299) :=
  ⟨rfl, rfl, rfl, rfl, rfl, by decide⟩

/-- The error the engine's status classification produces, for statuses in
the 400–599 range where every non-2xx status really is rejected: 401/403 →
authorization, 404 → not found, 429 → rate limited, 5xx → server error,
any other 4xx → the generic `HTTPError` from `raise_for_status`. -/
def classifyBad (status : Nat) : PyErr :=
  if status = 401 ∨ status = 403 then
    { ty := "RuntimeError", msg := "HTTP " ++ toString status ++ " forbidden/unauthorized" }
  else if status = 404 then
    { ty := "RuntimeError", msg := "HTTP 404 not found" }
  else if status = 429 then
    { ty := "RuntimeError", msg := "HTTP 429 rate limited" }
  else if 500 ≤ status ∧ status ≤ 599 then
    { ty := "RuntimeError", msg := "HTTP " ++ toString status ++ " server error" }
  else
    { ty := "HTTPError", msg := "HTTP error " ++ toString status }

/-- One attempt against a response whose status lies in 400–599 fails with
the classified error, after recording the status into `progress["status"]`;
no temp file is created and the body is never read. -/
theorem tryAttempt_badStatus (cancelAt : Option Nat) (status : Nat) (cl : Option String)
    (body : List BodyEv) (st : EngineSt) (h4 : 400 ≤ status) (h5 : status ≤ 599) :
    tryAttempt cancelAt (TResp.resp status cl body) st =
      (Except.error (classifyBad status),
       { st with progress := { st.progress with status := some status } }) := by
  simp only [tryAttempt, classifyBad, raiseForStatus]
  split_ifs <;> first | rfl | omega

/-- C5 amended: for every attempt whose status is 401, 403, 404, 429, 5xx or
any other status in 400–599, the attempt fails with the corresponding
classified error; the error description is recorded into `progress["error"]`
and the status into `progress["status"]`; each such attempt counts against
the 4-attempt budget and the loop continues until the budget is exhausted,
ending in the terminal wrapping error.  (Non-2xx statuses below 400, such as
304, are not classified as errors — see the counterexample.) -/
theorem C5_amended_bad_status_classified (status : Nat) (cl : Option String)
    (body : List BodyEv) (h4 : 400 ≤ status) (h5 : status ≤ 599) :
    (download_file_with_progress (fun _ => TResp.resp status cl body) none).1 =
      Except.error { ty := "RuntimeError",
                     msg := "download failed after retries: " ++ (classifyBad status).msg } ∧
    (download_file_with_progress (fun _ => TResp.resp status cl body) none).2.gets = 4 ∧
    (download_file_with_progress
        (fun _ => TResp.resp status cl body) none).2.progress.done = true ∧
    (download_file_with_progress
        (fun _ => TResp.resp status cl body) none).2.progress.status = some status ∧
    (download_file_with_progress
        (fun _ => TResp.resp status cl body) none).2.progress.error =
      some (fmtProgErr (classifyBad status)) ∧
    (download_file_with_progress (fun _ => TResp.resp status cl body) none).2.nextTmp = 0 := by
  have h1 : ∀ st : EngineSt,
      tryAttempt none (TResp.resp status cl body) st =
        (Except.error (classifyBad status),
         { st with progress := { st.progress with status := some status } }) :=
    fun st => tryAttempt_badStatus none status cl body st h4 h5
  simp [download_file_with_progress, attemptSchedule, backoffs, downloadLoop, h1,
    isSetAt, fmtStrErr, initProgress]

/-- Witness for the amended C5 at status 404: the hypotheses hold and the
conclusion evaluates as stated. -/
theorem C5_amended_witness :
    400 ≤ 404 ∧ 404 ≤ 599 ∧
    ((download_file_with_progress (fun _ => TResp.resp 404 none []) none).1 =
        Except.error { ty := "RuntimeError",
                       msg := "download failed after retries: " ++ (classifyBad 404).msg } ∧
      (download_file_with_progress (fun _ => TResp.resp 404 none []) none).2.gets = 4 ∧
      (download_file_with_progress
          (fun _ => TResp.resp 404 none []) none).2.progress.done = true ∧
      (download_file_with_progress
          (fun _ => TResp.resp 404 none []) none).2.progress.status = some 404 ∧
      (download_file_with_progress
          (fun _ => TResp.resp 404 none []) none).2.progress.error =
        some (fmtProgErr (classifyBad 404)) ∧
      (download_file_with_progress (fun _ => TResp.resp 404 none []) none).2.nextTmp = 0) :=
  ⟨by decide, by decide,
   C5_amended_bad_status_classified 404 none [] (by decide) (by decide)⟩

/-- C10: if the cancel event is already set when the engine is invoked (it
becomes set from `is_set()` call 0 on), the invocation fails with the
cancellation error raised by the pre-attempt check at bot.py:144-147, before
any network request is issued (`gets = 0`) and before any temp file is
created, with `done = true` and `error = "cancelled"` recorded. -/
theorem C10_precancelled (t : Transport) :
    (download_file_with_progress t (some 0)).1 =
      Except.error { ty := "RuntimeError", msg := "cancelled" } ∧
    (download_file_with_progress t (some 0)).2.gets = 0 ∧
    (download_file_with_progress t (some 0)).2.progress.done = true ∧
    (download_file_with_progress t (some 0)).2.progress.error = some "cancelled" ∧
    (download_file_with_progress t (some 0)).2.progress.downloaded = 0 ∧
    (download_file_with_progress t (some 0)).2.nextTmp = 0 :=
  ⟨rfl, rfl, rfl, rfl, rfl, rfl⟩

/-
The Progress Reporter `_progress_updater` (bot.py:200-223).  One loop
iteration per polling interval: read a snapshot of the shared progress dict,
render the status text, and edit the user-facing message only when the text
differs from the last successfully displayed one (`last_text`, initially the
empty string, which no rendered text equals); a failed edit is swallowed and
leaves `last_text` unchanged.  The snapshot stream is a function from the
tick index; the fate of each `edit_text` call is a function from the tick.
-/

/-- A snapshot of the shared progress dict as the reporter reads it
(`progress.get("downloaded") or 0`, `progress.get("total")`,
`progress.get("status")`, `progress.get("done")`). -/
structure Snap where
  downloaded : Nat
  total : Option Nat
  status : Option Nat
  done : Bool

/-- Python `f"{n / (1024 * 1024):.1f}"` modelled in tenths of a megabyte
(round-half-up on the exact rational; the float's round-half-even on exact
ties is not modelled — no claim depends on tie behaviour). -/
def fmt_mb_tenths (n : Nat) : Nat := (n * 10 + 524288) / 1048576

/-- Python truthiness of the optional status (`if status:`). -/
def truthyStatus : Option Nat → Option Nat
  | some s => if s = 0 then none else some s
  | none => none

/-- The rendered status text, field by field: the label, the percentage when
shown, the downloaded figure in tenths of MB, the total in tenths of MB when
known, and the appended HTTP status when truthy.  The Python string is a
fixed format over exactly these data, so string equality at bot.py:216 is
equality of this structure. -/
structure RText where
  label : String
  pct : Option Nat
  dTen : Nat
  tTen : Option Nat
  httpStatus : Option Nat
deriving DecidableEq, Repr

/-- Rendering at bot.py:203-214: with a known positive total, show
`min(99, downloaded * 100 / total)` percent and both byte figures; else only
the raw downloaded figure; append the HTTP status when truthy. -/
def render (label : String) (s : Snap) : RText :=
  match s.total with
  | some t =>
    if 0 < t then
      { label := label, pct := some (min 99 (s.downloaded * 100 / t)),
        dTen := fmt_mb_tenths s.downloaded, tTen := some (fmt_mb_tenths t),
        httpStatus := truthyStatus s.status }
    else
      { label := label, pct := none, dTen := fmt_mb_tenths s.downloaded, tTen := none,
        httpStatus := truthyStatus s.status }
  | none =>
    { label := label, pct := none, dTen := fmt_mb_tenths s.downloaded, tTen := none,
      httpStatus := truthyStatus s.status }

/-- One observable `edit_text` call: at which tick, with which text, and
whether the platform accepted it. -/
structure Ev where
  tick : Nat
  text : RText
  ok : Bool
deriving DecidableEq, Repr

/-- The reporter loop, fuel-bounded: at each tick, stop if the snapshot says
done; otherwise render, and if the text differs from the last successfully
displayed one, attempt the edit (recording the event) and update `last_text`
only on success. -/
def progress_updater (snap : Nat → Snap) (editOk : Nat → Bool) (label : String) :
    Nat → Nat → Option RText → List Ev
  | 0, _, _ => []
  | fuel + 1, i, last =>
    if (snap i).done then []
    else
      let text := render label (snap i)
      if some text = last then progress_updater snap editOk label fuel (i + 1) last
      else
        let ok := editOk i
        { tick := i, text := text, ok := ok } ::
          progress_updater snap editOk label fuel (i + 1) (if ok then some text else last)

/-- Non-redundancy of an edit sequence relative to the last successfully
displayed text: each attempted edit's text differs from what is currently
displayed, and only accepted edits change the displayed text. -/
def okSeqB : Option RText → List Ev → Bool
  | _, [] => true
  | last, ev :: rest =>
    if some ev.text = last then false
    else okSeqB (if ev.ok then some ev.text else last) rest

/-- Every event the reporter emits happens at or after the starting tick,
carries the rendering of its tick's snapshot, and every tick from the start
through the event's tick was polled while not yet done. -/
theorem progress_updater_events (snap : Nat → Snap) (editOk : Nat → Bool) (label : String)
    (fuel i : Nat) (last : Option RText) (ev : Ev)
    (hev : ev ∈ progress_updater snap editOk label fuel i last) :
    i ≤ ev.tick ∧ ev.text = render label (snap ev.tick) ∧
      ∀ j, i ≤ j → j ≤ ev.tick → (snap j).done = false := by
  induction fuel generalizing i last with
  | zero => simp [progress_updater] at hev
  | succ fuel ih =>
    rw [progress_updater] at hev
    by_cases hd : (snap i).done
    · simp [hd] at hev
    · rw [if_neg (by simp [hd])] at hev
      by_cases heq : some (render label (snap i)) = last
      · rw [if_pos heq] at hev
        obtain ⟨h1, h2, h3⟩ := ih _ _ hev
        refine ⟨Nat.le_of_succ_le h1, h2, fun j hji hjt => ?_⟩
        rcases Nat.eq_or_lt_of_le hji with h | h
        · rw [← h]; exact Bool.not_eq_true _ ▸ by simpa using hd
        · exact h3 j h hjt
      · rw [if_neg heq] at hev
        rcases List.mem_cons.mp hev with h | h
        · subst h
          refine ⟨Nat.le_refl i, rfl, fun j hji hjt => ?_⟩
          have : j = i := Nat.le_antisymm hjt hji
          rw [this]; simpa using hd
        · obtain ⟨h1, h2, h3⟩ := ih _ _ h
          refine ⟨Nat.le_of_succ_le h1, h2, fun j hji hjt => ?_⟩
          rcases Nat.eq_or_lt_of_le hji with hji' | hji'
          · rw [← hji']; simpa using hd
          · exact h3 j hji' hjt

/-- The reporter's edit sequence is non-redundant relative to any starting
displayed text. -/
theorem progress_updater_okSeq (snap : Nat → Snap) (editOk : Nat → Bool) (label : String)
    (fuel i : Nat) (last : Option RText) :
    okSeqB last (progress_updater snap editOk label fuel i last) = true := by
  induction fuel generalizing i last with
  | zero => simp [progress_updater, okSeqB]
  | succ fuel ih =>
    rw [progress_updater]
    by_cases hd : (snap i).done
    · simp [hd, okSeqB]
    · simp only [hd]
      rw [if_neg (by simp [hd])]
      by_cases heq : some (render label (snap i)) = last
      · rw [if_pos heq]; exact ih _ _
      · rw [if_neg heq]
        rw [okSeqB, if_neg heq]
        exact ih _ _

/-- Any percentage the renderer shows is at most 99. -/
theorem render_pct_le (label : String) (s : Snap) (p : Nat)
    (hp : (render label s).pct = some p) : p ≤ 99 := by
  obtain ⟨d, tot, stat, dn⟩ := s
  rcases tot with _ | t
  · simp [render] at hp
  · by_cases ht : 0 < t
    · simp [render, ht] at hp
      rw [← hp]
      exact Nat.min_le_left _ _
    · simp [render, ht] at hp

/-- C6: over any run of the reporter loop (any snapshot stream, any edit
fates, any label, any fuel): (1) edits are emitted only when the rendered
text differs from the previously displayed text; (2) every displayed
percentage is at most 99, and every emitted event carries a not-yet-done
snapshot, so no percentage is shown once `done` is observed; (3) the loop
stops at the first tick whose snapshot is done — every emitted event is
strictly earlier than every done tick, i.e. polling stops within one
interval of `done` becoming true. -/
theorem C6_progress_updater (snap : Nat → Snap) (editOk : Nat → Bool) (label : String)
    (fuel : Nat) :
    okSeqB none (progress_updater snap editOk label fuel 0 none) = true ∧
    (∀ ev ∈ progress_updater snap editOk label fuel 0 none,
      (snap ev.tick).done = false ∧ ∀ p, ev.text.pct = some p → p ≤ 99) ∧
    (∀ ev ∈ progress_updater snap editOk label fuel 0 none,
      ∀ k, (snap k).done = true → ev.tick < k) := by
  refine ⟨progress_updater_okSeq snap editOk label fuel 0 none, ?_, ?_⟩
  · intro ev hev
    obtain ⟨h1, h2, h3⟩ := progress_updater_events snap editOk label fuel 0 none ev hev
    refine ⟨h3 ev.tick (Nat.zero_le _) (Nat.le_refl _), fun p hp => ?_⟩
    exact render_pct_le label (snap ev.tick) p (by rw [← h2]; exact hp)
  · intro ev hev k hk
    obtain ⟨_, _, h3⟩ := progress_updater_events snap editOk label fuel 0 none ev hev
    by_contra hlt
    push_neg at hlt
    have := h3 k (Nat.zero_le _) hlt
    rw [hk] at this
    exact Bool.true_eq_false.mp this

/-
The Request Orchestrator `_download_and_send` (bot.py:226-269), as the trace
of externally visible actions it performs.  The download is summarised by
its result (a path, or a raised error); the file send may fail (its failure
is caught by the `except` and answered with the generic failure message);
the `finally` block's four actions each swallow their own failures, so they
are always attempted, in order.
-/

/-- One externally visible action of `_download_and_send`. -/
inductive OAct where
  | postStatus
  | startUpdater
  | editUploading
  | sendFile (p : Nat)
  | replyFailure
  | setCancel
  | awaitUpdater
  | deleteStatusMsg
  | removeFile (p : Nat)
deriving DecidableEq, Repr

/-- The action trace of `_download_and_send`: post the status message, start
the reporter task, then the `try` body — on a successful download, attempt
the "uploading" edit (failure swallowed) and send the file, replying with
the generic failure text if the send raises; on a failed download, reply
with the generic failure text.  The `finally` block then always runs its
four actions; `path` is non-None exactly when the download returned. -/
def download_and_send (dl : Except PyErr Nat) (sendOk : Bool) : List OAct :=
  let body := match dl with
    | Except.ok p =>
      [OAct.editUploading, OAct.sendFile p] ++ (if sendOk then [] else [OAct.replyFailure])
    | Except.error _ => [OAct.replyFailure]
  let pathOpt := match dl with
    | Except.ok p => some p
    | Except.error _ => none
  [OAct.postStatus, OAct.startUpdater] ++ body ++
    [OAct.setCancel, OAct.awaitUpdater, OAct.deleteStatusMsg] ++
    (match pathOpt with
     | some p => [OAct.removeFile p]
     | none => [])

/-- C7: whatever the download result and whether the send succeeds, the trace
contains all four cleanup actions — the cancel event is set, the reporter
task is awaited, the status message is deleted, and, whenever the download
produced a file (the only case in which a temp file still exists: on a
failed download the engine already removed its temp file), that file is
removed. -/
theorem C7_cleanup_always_runs (dl : Except PyErr Nat) (sendOk : Bool) :
    OAct.setCancel ∈ download_and_send dl sendOk ∧
    OAct.awaitUpdater ∈ download_and_send dl sendOk ∧
    OAct.deleteStatusMsg ∈ download_and_send dl sendOk ∧
    (∀ p, dl = Except.ok p → OAct.removeFile p ∈ download_and_send dl sendOk) := by
  cases dl <;> cases sendOk <;> simp [download_and_send]

/-
The Link Cache (bot.py:33-79): the module-level dict `CACHE`, `cache_put`
and `cache_get`, plus the unconditional `CACHE.pop(user_id, None)` performed
by the «new link» button.  The dict is modelled as an association list with
at most one binding per key maintained by construction; `time.time()` is an
explicit natural-number clock (the expiry test `now - ts > TTL_SEC` agrees
with Python's real-number test whenever the clock does not go backwards, and
both sides say "not expired" when it does).
-/

/-- A cache entry: `{"sora": ..., "hq": ..., "alt": ..., "ts": ...}`. -/
structure CEntry where
  sora : String
  hq : Option String
  alt : Option String
  ts : Nat
deriving DecidableEq, Repr

/-- The cache: user id to entry. -/
abbrev CacheT := List (Nat × CEntry)

/-- `TTL_SEC = 10 * 60`. -/
def TTL_SEC : Nat := 10 * 60

/-- Dict lookup `CACHE.get(user_id)`. -/
def lookupU (u : Nat) : CacheT → Option CEntry
  | [] => none
  | (k, e) :: rest => if k = u then some e else lookupU u rest

/-- Dict removal `CACHE.pop(user_id, None)`. -/
def eraseU (u : Nat) : CacheT → CacheT
  | [] => []
  | (k, e) :: rest => if k = u then eraseU u rest else (k, e) :: eraseU u rest

/-- `cache_put`: store/overwrite the user's entry with the current time. -/
def cache_put (u : Nat) (sora : String) (hq alt : Option String) (now : Nat)
    (c : CacheT) : CacheT :=
  (u, { sora := sora, hq := hq, alt := alt, ts := now }) :: eraseU u c

/-- `cache_get`: absent if no entry; if the entry is older than the TTL,
evict it and return absent; otherwise return it.  The returned pair is
(result, cache afterwards). -/
def cache_get (u : Nat) (now : Nat) (c : CacheT) : Option CEntry × CacheT :=
  match lookupU u c with
  | none => (none, c)
  | some e => if now - e.ts > TTL_SEC then (none, eraseU u c) else (some e, c)

/-- `CACHE.pop(user_id, None)` as performed by the «new link» button. -/
def cache_del (u : Nat) (c : CacheT) : CacheT := eraseU u c

/-- A cache operation in a history: a put (with its clock reading), an
explicit delete, or a get (whose eviction side effect matters). -/
inductive CacheOp where
  | put (u : Nat) (sora : String) (hq alt : Option String) (t : Nat)
  | del (u : Nat)
  | get (u : Nat) (t : Nat)

/-- Run a history of operations over a cache. -/
def runOps : CacheT → List CacheOp → CacheT
  | c, [] => c
  | c, CacheOp.put u s h a t :: rest => runOps (cache_put u s h a t c) rest
  | c, CacheOp.del u :: rest => runOps (cache_del u c) rest
  | c, CacheOp.get u t :: rest => runOps (cache_get u t c).2 rest

/-- The entry written by the most recent put for `u` in a history (starting
from a given earlier value), regardless of later deletes or evictions. -/
def lastPutE (u : Nat) : List CacheOp → Option CEntry → Option CEntry
  | [], acc => acc
  | CacheOp.put u' s h a t :: rest, acc =>
    lastPutE u rest (if u' = u then some { sora := s, hq := h, alt := a, ts := t } else acc)
  | CacheOp.del _ :: rest, acc => lastPutE u rest acc
  | CacheOp.get _ _ :: rest, acc => lastPutE u rest acc

theorem lookupU_eraseU_self (u : Nat) (c : CacheT) : lookupU u (eraseU u c) = none := by
  induction c with
  | nil => rfl
  | cons kv rest ih =>
    obtain ⟨k, e⟩ := kv
    by_cases hk : k = u
    · simpa [eraseU, hk] using ih
    · simp [eraseU, lookupU, hk, ih]

theorem lookupU_eraseU_ne (u v : Nat) (c : CacheT) (h : v ≠ u) :
    lookupU u (eraseU v c) = lookupU u c := by
  induction c with
  | nil => rfl
  | cons kv rest ih =>
    obtain ⟨k, e⟩ := kv
    by_cases hkv : k = v
    · subst hkv
      simp [eraseU, lookupU, h, ih]
    · simp only [eraseU, if_neg hkv, lookupU]
      by_cases hku : k = u
      · simp [hku]
      · simp [hku, ih]

/-- Invariant: whatever the cache holds for `u` is what the most recent put
for `u` wrote. -/
def GoodFor (u : Nat) (hist : Option CEntry) (c : CacheT) : Prop :=
  ∀ e, lookupU u c = some e → hist = some e

theorem runOps_goodFor (u : Nat) (ops : List CacheOp) (c : CacheT) (hist : Option CEntry)
    (hg : GoodFor u hist c) : GoodFor u (lastPutE u ops hist) (runOps c ops) := by
  induction ops generalizing c hist with
  | nil => exact hg
  | cons op rest ih =>
    cases op with
    | put u' s h a t =>
      refine ih _ _ fun e he => ?_
      by_cases hu : u' = u
      · subst hu
        rw [if_pos rfl]
        simp [cache_put, lookupU] at he
        rw [he]
      · rw [if_neg hu]
        simp only [cache_put, lookupU, if_neg hu] at he
        rw [lookupU_eraseU_ne u u' c hu] at he
        exact hg e he
    | del u' =>
      refine ih _ _ fun e he => ?_
      by_cases hu : u' = u
      · subst hu
        rw [cache_del, lookupU_eraseU_self] at he
        exact absurd he (by simp)
      · rw [cache_del, lookupU_eraseU_ne u u' c hu] at he
        exact hg e he
    | get u' t =>
      refine ih _ _ fun e he => ?_
      rcases hl : lookupU u' c with _ | e'
      · simp only [cache_get, hl] at he
        exact hg e he
      · simp only [cache_get, hl] at he
        by_cases ht : t - e'.ts > TTL_SEC
        · rw [if_pos ht] at he
          simp only [] at he
          by_cases hu : u' = u
          · subst hu
            rw [lookupU_eraseU_self] at he
            exact absurd he (by simp)
          · rw [lookupU_eraseU_ne u u' c hu] at he
            exact hg e he
        · rw [if_neg ht] at he
          exact hg e he

/-- C8: for every operation history and user, `cache_get` returns absent
when the history contains no put for that user; and when the most recent put
happened more than `TTL_SEC` before the get's clock reading, `cache_get`
returns absent and also evicts whatever stale binding remained, so the
resulting cache holds nothing for the user. -/
theorem C8_ttl_expiry (ops : List CacheOp) (u now : Nat) :
    (lastPutE u ops none = none → (cache_get u now (runOps [] ops)).1 = none) ∧
    (∀ e, lastPutE u ops none = some e → now - e.ts > TTL_SEC →
      (cache_get u now (runOps [] ops)).1 = none ∧
      lookupU u (cache_get u now (runOps [] ops)).2 = none) := by
  have hg : GoodFor u (lastPutE u ops none) (runOps [] ops) :=
    runOps_goodFor u ops [] none (fun e he => by simp [lookupU] at he)
  constructor
  · intro hnone
    rcases hl : lookupU u (runOps [] ops) with _ | e
    · simp [cache_get, hl]
    · exact absurd (hg e hl) (by simp [hnone])
  · intro e hlast hexp
    rcases hl : lookupU u (runOps [] ops) with _ | e'
    · simp [cache_get, hl]
    · have he' : e' = e := by
        have := hg e' hl
        rw [hlast] at this
        exact (Option.some.injEq _ _ ▸ this).symm
      subst he'
      simp [cache_get, hl, hexp, lookupU_eraseU_self]

/-- Concrete instantiation of the TTL theorem: one put for user 1 at time 0,
read back at time 601 — absent and evicted; and user 2, never put, is
absent. -/
theorem C8_ttl_expiry_witness :
    ((cache_get 1 601 (runOps [] [CacheOp.put 1 "s" none none 0])).1 = none ∧
      lookupU 1 (cache_get 1 601 (runOps [] [CacheOp.put 1 "s" none none 0])).2 = none) ∧
    (cache_get 2 601 (runOps [] [CacheOp.put 1 "s" none none 0])).1 = none :=
  ⟨(C8_ttl_expiry [CacheOp.put 1 "s" none none 0] 1 601).2
      { sora := "s", hq := none, alt := none, ts := 0 } (by decide) (by decide),
   (C8_ttl_expiry [CacheOp.put 1 "s" none none 0] 2 601).1 (by decide)⟩

/-- C9: a put followed immediately (within the TTL — at most `TTL_SEC`
seconds later, since expiry is strict) by a get for the same user returns
exactly the stored source link and URLs, and leaves the cache unchanged. -/
theorem C9_put_then_get (c : CacheT) (u : Nat) (sora : String) (hq alt : Option String)
    (t now : Nat) (h : now - t ≤ TTL_SEC) :
    cache_get u now (cache_put u sora hq alt t c) =
      (some { sora := sora, hq := hq, alt := alt, ts := t },
       cache_put u sora hq alt t c) := by
  simp [cache_get, cache_put, lookupU]
  omega

/-- Witness for C9 at a concrete input. -/
theorem C9_put_then_get_witness :
    cache_get 1 300 (cache_put 1 "link" (some "hq") none 0 []) =
      (some { sora := "link", hq := some "hq", alt := none, ts := 0 },
       cache_put 1 "link" (some "hq") none 0 []) :=
  C9_put_then_get [] 1 "link" (some "hq") none 0 300 (by decide)

end Bot
